import Mathlib

/-!
Verification of the memoizing-property core of `building_blocks`
(`src/structure.py` and `src/models.py`), as a shallow embedding.

Python values are modelled by `PyVal`, with `PyVal.none` playing the role
of Python's `None` (which the code uses both as the unset-cache sentinel
and as an ordinary value).  A model instance is the record `Model` with
the attributes set by `Model.__init__`.  Attribute access by name
(`getattr` / `setattr` on the four cache slots) is modelled by an `Attr`
enumeration.  A computation callable bound to the instance may mutate
external state (for example a framework graph) and may raise: it is
modelled as a function `Model → σ → σ × Except ε PyVal`, where `σ` is the
external state and an `Except.error` result is a raised fault.  The
instance itself is threaded explicitly, so the decorated accessor becomes
a function from `(Model, σ)` to the updated `(Model, σ)` and an outcome.
-/

namespace BuildingBlocks

/-- Python runtime values as used by this library: `None`, booleans,
integers, floats (the library only ever writes exact decimal literals
such as `1e-4`, so rationals are a faithful carrier) and strings. -/
inductive PyVal where
  | none : PyVal
  | bool : Bool → PyVal
  | int : Int → PyVal
  | float : ℚ → PyVal
  | str : String → PyVal
  deriving DecidableEq

/-- Names of the four cache-slot attributes `_prediction`, `_loss`,
`_metric`, `_optimize` that `property_wrap` is instantiated with in
`src/models.py`. -/
inductive Attr where
  | prediction : Attr
  | loss : Attr
  | metric : Attr
  | optimize : Attr
  deriving DecidableEq

/-- The attributes a `Model` instance owns after `Model.__init__`
(`src/models.py`, lines 4-17): four configuration fields, the
`global_step` counter slot, and the four cache slots, each initialised
to `None`. -/
structure Model where
  data : PyVal
  batch_size : PyVal
  testing : PyVal
  learning_rate : PyVal
  global_step : PyVal
  cache_loss : PyVal
  cache_metric : PyVal
  cache_optimize : PyVal
  cache_prediction : PyVal
  deriving DecidableEq

/-- Embedding of `Model.__init__`: stores the four configuration
arguments unchanged and sets `global_step` and the four cache slots
to `None`. -/
def Model.init (data batch_size testing learning_rate : PyVal) : Model :=
  ⟨data, batch_size, testing, learning_rate,
    PyVal.none, PyVal.none, PyVal.none, PyVal.none, PyVal.none⟩

/-- Python `getattr(self, attr)` for the four cache-slot names. -/
def getattr (m : Model) : Attr → PyVal
  | Attr.prediction => m.cache_prediction
  | Attr.loss => m.cache_loss
  | Attr.metric => m.cache_metric
  | Attr.optimize => m.cache_optimize

/-- Python `setattr(self, attr, v)` for the four cache-slot names. -/
def setattr (m : Model) : Attr → PyVal → Model
  | Attr.prediction, v => ⟨m.data, m.batch_size, m.testing, m.learning_rate,
      m.global_step, m.cache_loss, m.cache_metric, m.cache_optimize, v⟩
  | Attr.loss, v => ⟨m.data, m.batch_size, m.testing, m.learning_rate,
      m.global_step, v, m.cache_metric, m.cache_optimize, m.cache_prediction⟩
  | Attr.metric, v => ⟨m.data, m.batch_size, m.testing, m.learning_rate,
      m.global_step, m.cache_loss, v, m.cache_optimize, m.cache_prediction⟩
  | Attr.optimize, v => ⟨m.data, m.batch_size, m.testing, m.learning_rate,
      m.global_step, m.cache_loss, m.cache_metric, v, m.cache_prediction⟩

/-- Embedding of `property_wrap` from `src/structure.py` (lines 18-26):
one read of the property produced by
`property_wrap(attr)(func)`.  The body of `decorator(self)` is

  if getattr(self, attr) is None:
      setattr(self, attr, func(self))
  return getattr(self, attr)

A raised fault inside `func(self)` aborts before the `setattr`; the
external state mutated by the callable up to the raise is kept. -/
def property_wrap {σ ε : Type} (attr : Attr)
    (func : Model → σ → σ × Except ε PyVal)
    (self : Model) (s : σ) : (Model × σ) × Except ε PyVal :=
  if getattr self attr = PyVal.none then
    match func self s with
    | (s2, Except.error e) => ((self, s2), Except.error e)
    | (s2, Except.ok v) =>
        ((setattr self attr v, s2),
          Except.ok (getattr (setattr self attr v) attr))
  else
    ((self, s), Except.ok (getattr self attr))

/-- Embedding of the decorated accessor `Model.prediction`
(`src/models.py`): `property_wrap('_prediction')` applied to the method
body `return self._prediction`. -/
def Model.prediction {σ ε : Type} : Model → σ → (Model × σ) × Except ε PyVal :=
  property_wrap Attr.prediction (fun self s => (s, Except.ok self.cache_prediction))

/-- Embedding of the decorated accessor `Model.loss` (`src/models.py`). -/
def Model.loss {σ ε : Type} : Model → σ → (Model × σ) × Except ε PyVal :=
  property_wrap Attr.loss (fun self s => (s, Except.ok self.cache_loss))

/-- Embedding of the decorated accessor `Model.metric` (`src/models.py`). -/
def Model.metric {σ ε : Type} : Model → σ → (Model × σ) × Except ε PyVal :=
  property_wrap Attr.metric (fun self s => (s, Except.ok self.cache_metric))

/-- Embedding of the decorated accessor `Model.optimize` (`src/models.py`). -/
def Model.optimize {σ ε : Type} : Model → σ → (Model × σ) × Except ε PyVal :=
  property_wrap Attr.optimize (fun self s => (s, Except.ok self.cache_optimize))

/-- Reading one memoized accessor `n` times in a row, collecting the
outcome of every read. -/
def readN {σ ε : Type} (attr : Attr)
    (func : Model → σ → σ × Except ε PyVal) :
    Nat → Model → σ → (Model × σ) × List (Except ε PyVal)
  | 0, m, s => ((m, s), [])
  | Nat.succ n, m, s =>
      let r := property_wrap attr func m s
      let rest := readN attr func n r.1.1 r.1.2
      (rest.1, r.2 :: rest.2)

/-- Running an arbitrary sequence of accessor reads, each read naming
its slot and its computation callable; only the final instance and
external state are kept. -/
def readSeq {σ ε : Type} :
    List (Attr × (Model → σ → σ × Except ε PyVal)) →
    Model → σ → Model × σ
  | [], m, s => (m, s)
  | (a, f) :: rest, m, s =>
      let r := property_wrap a f m s
      readSeq rest r.1.1 r.1.2

/-- A computation callable that counts its own invocations in the
external state and returns the fixed value `v`. -/
def countingFunc {ε : Type} (v : PyVal) : Model → Nat → Nat × Except ε PyVal :=
  fun _ c => (c + 1, Except.ok v)

/-- The configuration surface of an instance: the four constructor
arguments and `global_step`, none of which is a cache slot. -/
def config (m : Model) : PyVal × PyVal × PyVal × PyVal × PyVal :=
  (m.data, m.batch_size, m.testing, m.learning_rate, m.global_step)

/-- Writing a slot and reading the same slot back yields the written
value. -/
theorem getattr_setattr_same (m : Model) (a : Attr) (v : PyVal) :
    getattr (setattr m a v) a = v := by
  cases a <;> rfl

/-- Writing one slot leaves every other slot unchanged. -/
theorem getattr_setattr_ne (m : Model) (a b : Attr) (v : PyVal)
    (h : a ≠ b) : getattr (setattr m a v) b = getattr m b := by
  cases a <;> cases b <;> first | rfl | exact absurd rfl h

/-- Writing a cache slot leaves the configuration surface unchanged. -/
theorem config_setattr (m : Model) (a : Attr) (v : PyVal) :
    config (setattr m a v) = config m := by
  cases a <;> rfl

/-- Writing `None` into a slot that already holds `None` is the
identity on the instance. -/
theorem setattr_none_of_none (m : Model) (a : Attr)
    (h : getattr m a = PyVal.none) :
    setattr m a PyVal.none = m := by
  cases m
  cases a <;> simp only [getattr] at h <;> simp [setattr, h]

/-- Reading an accessor whose slot is already set returns the cached
value and changes nothing: the callable is not consulted at all. -/
theorem property_wrap_cached {σ ε : Type} (attr : Attr)
    (func : Model → σ → σ × Except ε PyVal) (m : Model) (s : σ)
    (h : getattr m attr ≠ PyVal.none) :
    property_wrap attr func m s = ((m, s), Except.ok (getattr m attr)) := by
  simp [property_wrap, h]

/-- Reading an accessor whose slot is unset runs the callable; on
success the result is stored and returned. -/
theorem property_wrap_compute {σ ε : Type} (attr : Attr)
    (func : Model → σ → σ × Except ε PyVal) (m : Model) (s s2 : σ)
    (v : PyVal) (h : getattr m attr = PyVal.none)
    (hf : func m s = (s2, Except.ok v)) :
    property_wrap attr func m s = ((setattr m attr v, s2), Except.ok v) := by
  simp [property_wrap, h, hf, getattr_setattr_same]

/-- Repeated reads of an accessor whose slot is already set return the
cached value every time and change nothing. -/
theorem readN_cached {σ ε : Type} (attr : Attr)
    (func : Model → σ → σ × Except ε PyVal) (n : Nat) (m : Model) (s : σ)
    (h : getattr m attr ≠ PyVal.none) :
    readN attr func n m s =
      ((m, s), List.replicate n (Except.ok (getattr m attr))) := by
  induction n with
  | zero => rfl
  | succ k ih =>
      simp [readN, property_wrap_cached attr func m s h, ih, List.replicate]

/-- A base instance built with the constructor's default arguments
(`data=None`, `batch_size=None`, `testing=False`, `learning_rate=1e-4`). -/
def m0 : Model :=
  Model.init PyVal.none PyVal.none (PyVal.bool false) (PyVal.float (1 / 10000))

/-- A stateful computation callable that returns `None` on its first
invocation and the integer `5` afterwards, counting invocations. -/
def noneThenFive : Model → Nat → Nat × Except Unit PyVal :=
  fun _ c => (c + 1, Except.ok (if c = 0 then PyVal.none else PyVal.int 5))

/-- Repeatedly reading an accessor whose callable keeps returning the
`None` sentinel runs the callable on every read and never stores
anything: `n` reads perform `n` executions, return `None` each time,
and leave the instance unchanged (the slot still unset). -/
theorem readN_none_loop {ε : Type} (attr : Attr) (m : Model) (c : Nat)
    (h : getattr m attr = PyVal.none) (n : Nat) :
    readN attr (@countingFunc ε PyVal.none) n m c =
      ((m, c + n), List.replicate n (Except.ok PyVal.none)) := by
  induction n generalizing c with
  | zero => simp [readN]
  | succ k ih =>
      have hstep : property_wrap attr (@countingFunc ε PyVal.none) m c =
          ((m, c + 1), Except.ok PyVal.none) := by
        have := property_wrap_compute attr (@countingFunc ε PyVal.none)
          m c (c + 1) PyVal.none h rfl
        rwa [setattr_none_of_none m attr h] at this
      simp only [readN, hstep, ih (c + 1), List.replicate]
      have hc : c + 1 + k = c + (k + 1) := by omega
      rw [hc]

/-- C1 (amended): for a counting computation callable whose returned
value is not the `None` sentinel, and a slot still unset, reading the
accessor zero times performs zero executions, and reading it any
`n > 0` times performs exactly one execution. -/
theorem exactly_once_if_read_of_nonnone {ε : Type} (attr : Attr)
    (v : PyVal) (m : Model) (c : Nat)
    (h : getattr m attr = PyVal.none) (hv : v ≠ PyVal.none) :
    (readN attr (@countingFunc ε v) 0 m c).1.2 = c ∧
    ∀ n : Nat, 0 < n → (readN attr (@countingFunc ε v) n m c).1.2 = c + 1 := by
  refine ⟨rfl, ?_⟩
  intro n hn
  match n, hn with
  | Nat.succ k, _ =>
    have hstep : property_wrap attr (@countingFunc ε v) m c =
        ((setattr m attr v, c + 1), Except.ok v) :=
      property_wrap_compute attr (@countingFunc ε v) m c (c + 1) v h rfl
    have hset : getattr (setattr m attr v) attr ≠ PyVal.none := by
      rw [getattr_setattr_same]; exact hv
    simp [readN, hstep, readN_cached attr (@countingFunc ε v) k
      (setattr m attr v) (c + 1) hset]

/-- Witness for `exactly_once_if_read_of_nonnone` at a concrete input:
fresh base instance, callable returning the integer 7, three reads. -/
theorem exactly_once_if_read_witness :
    (readN Attr.loss (@countingFunc Unit (PyVal.int 7)) 0 m0 0).1.2 = 0 ∧
    (readN Attr.loss (@countingFunc Unit (PyVal.int 7)) 3 m0 0).1.2 = 0 + 1 :=
  ⟨(exactly_once_if_read_of_nonnone Attr.loss (PyVal.int 7) m0 0 rfl
      (by decide)).1,
    (exactly_once_if_read_of_nonnone Attr.loss (PyVal.int 7) m0 0 rfl
      (by decide)).2 3 (by decide)⟩

/-- C1 (counterexample): a counting callable returning `None` on a
fresh instance, read twice, has executed 2 times, not 1: the
at-most-once guarantee fails as universally stated. -/
theorem at_most_once_fails_on_none_return :
    getattr m0 Attr.loss = PyVal.none ∧
    (readN Attr.loss (@countingFunc Unit PyVal.none) 2 m0 0).1.2 = 2 ∧
    (2 : Nat) ≠ 1 :=
  ⟨rfl, rfl, by decide⟩

/-- C2 (amended): whenever the first read of an accessor returns a
value other than the `None` sentinel, every later read returns that
same value: `n + 1` consecutive reads all yield it. -/
theorem idempotent_reads_of_nonnone {σ ε : Type} (attr : Attr)
    (func : Model → σ → σ × Except ε PyVal) (m : Model) (s : σ) (v : PyVal)
    (hok : (property_wrap attr func m s).2 = Except.ok v)
    (hv : v ≠ PyVal.none) (n : Nat) :
    (readN attr func (n + 1) m s).2 = List.replicate (n + 1) (Except.ok v) := by
  by_cases h : getattr m attr = PyVal.none
  · rcases hfv : func m s with ⟨s2, r⟩
    cases r with
    | error e =>
        rw [property_wrap, if_pos h, hfv] at hok
        exact absurd hok (by simp)
    | ok w =>
        have hpw := property_wrap_compute attr func m s s2 w h hfv
        rw [hpw] at hok
        have hw : w = v := by injection hok
        subst hw
        have hset : getattr (setattr m attr w) attr ≠ PyVal.none := by
          rw [getattr_setattr_same]; exact hv
        simp [readN, hpw,
          readN_cached attr func n (setattr m attr w) s2 hset,
          getattr_setattr_same, List.replicate]
  · have hpw := property_wrap_cached attr func m s h
    rw [hpw] at hok
    have hw : getattr m attr = v := by injection hok
    simp [readN, hpw, readN_cached attr func n m s h, hw, List.replicate]

/-- Witness for `idempotent_reads_of_nonnone`: fresh base instance,
callable returning the integer 7, four reads in total. -/
theorem idempotent_reads_witness :
    (readN Attr.metric (@countingFunc Unit (PyVal.int 7)) (3 + 1) m0 0).2 =
      List.replicate (3 + 1) (Except.ok (PyVal.int 7)) :=
  idempotent_reads_of_nonnone Attr.metric (@countingFunc Unit (PyVal.int 7))
    m0 0 (PyVal.int 7) rfl (by decide) 3

/-- C2 (counterexample): a stateful callable returning `None` first and
the integer `5` afterwards makes the second read differ from the first:
the reads yield `None` then `5`. -/
theorem idempotent_reads_fails_on_none_first :
    (readN Attr.loss noneThenFive 2 m0 0).2 =
      [Except.ok PyVal.none, Except.ok (PyVal.int 5)] ∧
    (Except.ok (PyVal.int 5) : Except Unit PyVal) ≠ Except.ok PyVal.none :=
  ⟨rfl, by simp⟩

/-- C10: when the computation callable returns `None` — the same value
as the unset sentinel — the cache never engages: `n` reads of the
accessor perform `n` executions of the callable, every read returns
`None`, and the slot is still unset afterwards. -/
theorem none_result_never_caches {ε : Type} (attr : Attr) (m : Model)
    (c : Nat) (h : getattr m attr = PyVal.none) (n : Nat) :
    (readN attr (@countingFunc ε PyVal.none) n m c).1.2 = c + n ∧
    (readN attr (@countingFunc ε PyVal.none) n m c).2 =
      List.replicate n (Except.ok PyVal.none) ∧
    getattr (readN attr (@countingFunc ε PyVal.none) n m c).1.1 attr =
      PyVal.none := by
  rw [readN_none_loop attr m c h n]
  exact ⟨rfl, rfl, h⟩

/-- Witness for `none_result_never_caches`: fresh base instance, slot
`_optimize`, three reads. -/
theorem none_result_never_caches_witness :
    (readN Attr.optimize (@countingFunc Unit PyVal.none) 3 m0 0).1.2 = 0 + 3 ∧
    (readN Attr.optimize (@countingFunc Unit PyVal.none) 3 m0 0).2 =
      List.replicate 3 (Except.ok PyVal.none) ∧
    getattr (readN Attr.optimize (@countingFunc Unit PyVal.none) 3 m0 0).1.1
      Attr.optimize = PyVal.none :=
  none_result_never_caches Attr.optimize m0 0 rfl 3

/-- One accessor read, on any slot and with any callable, preserves
every slot that is currently set to a non-`None` value. -/
theorem getattr_property_wrap_preserved {σ ε : Type} (a attr : Attr)
    (f : Model → σ → σ × Except ε PyVal) (m : Model) (s : σ)
    (h : getattr m attr ≠ PyVal.none) :
    getattr (property_wrap a f m s).1.1 attr = getattr m attr := by
  by_cases ha : getattr m a = PyVal.none
  · have hne : a ≠ attr := fun hc => h (hc ▸ ha)
    rcases hfv : f m s with ⟨s2, r⟩
    cases r with
    | error e => simp [property_wrap, ha, hfv]
    | ok v => simp [property_wrap, ha, hfv, getattr_setattr_ne m a attr v hne]
  · simp [property_wrap, ha]

/-- One accessor read preserves the configuration surface of the
instance, whatever the slot and the callable. -/
theorem config_property_wrap {σ ε : Type} (a : Attr)
    (f : Model → σ → σ × Except ε PyVal) (m : Model) (s : σ) :
    config (property_wrap a f m s).1.1 = config m := by
  by_cases ha : getattr m a = PyVal.none
  · rcases hfv : f m s with ⟨s2, r⟩
    cases r with
    | error e => simp [property_wrap, ha, hfv]
    | ok v => simp [property_wrap, ha, hfv, config_setattr]
  · simp [property_wrap, ha]

/-- C3: once a cache slot holds a set (non-`None`) value, no sequence
of further accessor reads — on this or any other slot, with any
computation callables — ever changes that slot's value. -/
theorem slot_never_changes_once_set {σ ε : Type} (attr : Attr)
    (rs : List (Attr × (Model → σ → σ × Except ε PyVal))) :
    ∀ (m : Model) (s : σ), getattr m attr ≠ PyVal.none →
      getattr (readSeq rs m s).1 attr = getattr m attr := by
  induction rs with
  | nil => intro m s h; rfl
  | cons p rest ih =>
      intro m s h
      rcases p with ⟨a, f⟩
      have hstep := getattr_property_wrap_preserved a attr f m s h
      have h2 : getattr (property_wrap a f m s).1.1 attr ≠ PyVal.none := by
        rw [hstep]; exact h
      simp only [readSeq]
      rw [ih _ _ h2, hstep]

/-- Witness for `slot_never_changes_once_set`: an instance whose
`_loss` slot holds `3`, followed by a read of `loss` and a read of
`prediction`, still holds `3`. -/
theorem slot_never_changes_once_set_witness :
    getattr (readSeq
      [(Attr.loss, @countingFunc Unit (PyVal.int 9)),
        (Attr.prediction, @countingFunc Unit (PyVal.int 9))]
      (setattr m0 Attr.loss (PyVal.int 3)) 0).1 Attr.loss = PyVal.int 3 :=
  (slot_never_changes_once_set Attr.loss
    [(Attr.loss, @countingFunc Unit (PyVal.int 9)),
      (Attr.prediction, @countingFunc Unit (PyVal.int 9))]
    (setattr m0 Attr.loss (PyVal.int 3)) 0 (by decide)).trans rfl

/-- C4: when the slot is unset and the callable raises, the fault is
returned to the caller unchanged, the instance is not modified (so the
slot stays unset), and any subsequent read of the same accessor runs
the callable afresh, its outcome again determined by a new invocation. -/
theorem fault_propagates_and_slot_unset {σ ε : Type} (attr : Attr)
    (func : Model → σ → σ × Except ε PyVal) (m : Model) (s : σ) (s2 : σ)
    (e : ε) (h : getattr m attr = PyVal.none)
    (hf : func m s = (s2, Except.error e)) :
    property_wrap attr func m s = ((m, s2), Except.error e) ∧
    getattr (property_wrap attr func m s).1.1 attr = PyVal.none ∧
    ∀ s3 : σ, property_wrap attr func m s3 =
      (match func m s3 with
        | (s4, Except.error e2) => ((m, s4), Except.error e2)
        | (s4, Except.ok v) => ((setattr m attr v, s4), Except.ok v)) := by
  have h1 : property_wrap attr func m s = ((m, s2), Except.error e) := by
    simp [property_wrap, h, hf]
  refine ⟨h1, by rw [h1]; exact h, ?_⟩
  intro s3
  rcases hfv : func m s3 with ⟨s4, r⟩
  cases r with
  | error e2 => simp [property_wrap, h, hfv]
  | ok v => simp [property_wrap, h, hfv, getattr_setattr_same]

/-- A callable that raises on its first invocation and returns the
integer `4` on later ones, counting invocations. -/
def failThenFour : Model → Nat → Nat × Except String PyVal :=
  fun _ c => (c + 1, if c = 0 then Except.error "boom" else Except.ok (PyVal.int 4))

/-- Witness for `fault_propagates_and_slot_unset`: a fresh instance
and a callable that raises on its first call. -/
theorem fault_propagates_witness :
    property_wrap Attr.loss failThenFour m0 0 = ((m0, 1), Except.error "boom") ∧
    getattr (property_wrap Attr.loss failThenFour m0 0).1.1 Attr.loss =
      PyVal.none ∧
    property_wrap Attr.loss failThenFour m0 1 =
      ((setattr m0 Attr.loss (PyVal.int 4), 2), Except.ok (PyVal.int 4)) :=
  have h := fault_propagates_and_slot_unset Attr.loss failThenFour m0 0 1
    "boom" rfl rfl
  ⟨h.1, h.2.1, (h.2.2 1).trans rfl⟩

/-- A computation callable for slot `a` that bumps the invocation
counter of `a` in a per-slot counter table and returns `v`. -/
def slotCounter {ε : Type} (a : Attr) (v : PyVal) :
    Model → (Attr → Nat) → (Attr → Nat) × Except ε PyVal :=
  fun _ cs => (Function.update cs a (cs a + 1), Except.ok v)

/-- C5: reading one memoized accessor leaves every other cache slot and
the whole configuration surface unchanged, and with per-slot invocation
counters it executes no other slot's computation callable. -/
theorem read_touches_only_its_slot {σ ε : Type} (attr : Attr)
    (func : Model → σ → σ × Except ε PyVal) (m : Model) (s : σ) :
    (∀ b : Attr, b ≠ attr →
      getattr (property_wrap attr func m s).1.1 b = getattr m b) ∧
    config (property_wrap attr func m s).1.1 = config m ∧
    ∀ (v : PyVal) (cs : Attr → Nat) (b : Attr), b ≠ attr →
      (property_wrap attr (@slotCounter ε attr v) m cs).1.2 b = cs b := by
  refine ⟨?_, config_property_wrap attr func m s, ?_⟩
  · intro b hb
    by_cases ha : getattr m attr = PyVal.none
    · rcases hfv : func m s with ⟨s2, r⟩
      cases r with
      | error e => simp [property_wrap, ha, hfv]
      | ok v =>
          simp [property_wrap, ha, hfv,
            getattr_setattr_ne m attr b v (Ne.symm hb)]
    · simp [property_wrap, ha]
  · intro v cs b hb
    by_cases ha : getattr m attr = PyVal.none
    · simp [property_wrap, ha, slotCounter, Function.update_noteq hb]
    · simp [property_wrap, ha]

/-- Witness for `read_touches_only_its_slot`: reading `prediction` on a
fresh instance leaves the `_loss` slot, the configuration and the
`loss` invocation counter unchanged. -/
theorem read_touches_only_its_slot_witness :
    getattr ((property_wrap Attr.prediction (@countingFunc Unit (PyVal.int 7))
        m0 0).1.1) Attr.loss = getattr m0 Attr.loss ∧
    config (property_wrap Attr.prediction (@countingFunc Unit (PyVal.int 7))
        m0 0).1.1 = config m0 ∧
    (property_wrap Attr.prediction
        (@slotCounter Unit Attr.prediction (PyVal.int 7)) m0
        (fun _ => 0)).1.2 Attr.loss = 0 :=
  ⟨(read_touches_only_its_slot Attr.prediction
      (@countingFunc Unit (PyVal.int 7)) m0 0).1 Attr.loss (by decide),
    (read_touches_only_its_slot Attr.prediction
      (@countingFunc Unit (PyVal.int 7)) m0 0).2.1,
    (read_touches_only_its_slot Attr.prediction
      (@countingFunc Unit (PyVal.int 7)) m0 0).2.2 (PyVal.int 7)
      (fun _ => 0) Attr.loss (by decide)⟩

/-- A world of independently constructed instances, indexed by an
instance identifier; reading accessor `attr` on instance `i` rebinds
only instance `i`. -/
def readAt {σ ε : Type} (w : Nat → Model) (i : Nat) (attr : Attr)
    (func : Model → σ → σ × Except ε PyVal) (s : σ) :
    (Nat → Model) × σ × Except ε PyVal :=
  let r := property_wrap attr func (w i) s
  (Function.update w i r.1.1, r.1.2, r.2)

/-- C6: reading or computing a memoized accessor on one instance leaves
every other instance — in particular every one of its cache slots —
completely unchanged. -/
theorem instances_isolated {σ ε : Type} (w : Nat → Model) (i j : Nat)
    (attr : Attr) (func : Model → σ → σ × Except ε PyVal) (s : σ)
    (h : j ≠ i) :
    (readAt w i attr func s).1 j = w j ∧
    ∀ b : Attr, getattr ((readAt w i attr func s).1 j) b = getattr (w j) b := by
  have h1 : (readAt w i attr func s).1 j = w j := by
    simp [readAt, Function.update_noteq h]
  exact ⟨h1, fun b => by rw [h1]⟩

/-- Witness for `instances_isolated`: two fresh instances; computing
`loss` on instance 0 leaves instance 1 unchanged. -/
theorem instances_isolated_witness :
    (readAt (fun _ => m0) 0 Attr.loss (@countingFunc Unit (PyVal.int 7)) 0).1 1
      = m0 ∧
    ∀ b : Attr,
      getattr ((readAt (fun _ => m0) 0 Attr.loss
        (@countingFunc Unit (PyVal.int 7)) 0).1 1) b = getattr m0 b :=
  instances_isolated (fun _ => m0) 0 1 Attr.loss
    (@countingFunc Unit (PyVal.int 7)) 0 (by decide)

/-- The `loss` hook of the incrementing-counter subclass: each direct
call bumps the counter and returns its new value as an integer. -/
def counterLoss : Model → Nat → Nat × Except Unit PyVal :=
  fun _ c => (c + 1, Except.ok (PyVal.int (Int.ofNat (c + 1))))

/-- C7: with the incrementing-counter `loss` hook, reading `model.loss`
three times in a row returns `1` all three times, while calling the
hook directly three times returns `1`, then `2`, then `3`. -/
theorem concrete_counter_scenario :
    (readN Attr.loss counterLoss 3 m0 0).2 =
      [Except.ok (PyVal.int 1), Except.ok (PyVal.int 1),
        Except.ok (PyVal.int 1)] ∧
    (counterLoss m0 0).2 = Except.ok (PyVal.int 1) ∧
    (counterLoss m0 (counterLoss m0 0).1).2 = Except.ok (PyVal.int 2) ∧
    (counterLoss m0 (counterLoss m0 (counterLoss m0 0).1).1).2 =
      Except.ok (PyVal.int 3) :=
  ⟨rfl, rfl, rfl, rfl⟩

/-- C8: on a base `Model` with no overrides, reading each of the four
memoized accessors returns the still-unset backing slot, `None`, and
leaves the instance unchanged — in particular the slot stays unset. -/
theorem base_accessors_return_none {σ ε : Type}
    (d b t l : PyVal) (s : σ) :
    @Model.prediction σ ε (Model.init d b t l) s =
      ((Model.init d b t l, s), Except.ok PyVal.none) ∧
    @Model.loss σ ε (Model.init d b t l) s =
      ((Model.init d b t l, s), Except.ok PyVal.none) ∧
    @Model.metric σ ε (Model.init d b t l) s =
      ((Model.init d b t l, s), Except.ok PyVal.none) ∧
    @Model.optimize σ ε (Model.init d b t l) s =
      ((Model.init d b t l, s), Except.ok PyVal.none) :=
  ⟨rfl, rfl, rfl, rfl⟩

/-- C9: the constructor accepts arbitrary values for the four
configuration arguments and stores them unchanged, and no sequence of
accessor reads ever changes the configuration surface (the four
configuration fields together with `global_step`) of any instance. -/
theorem config_stored_and_immutable {σ ε : Type} (d b t l : PyVal) :
    (Model.init d b t l).data = d ∧
    (Model.init d b t l).batch_size = b ∧
    (Model.init d b t l).testing = t ∧
    (Model.init d b t l).learning_rate = l ∧
    ∀ (rs : List (Attr × (Model → σ → σ × Except ε PyVal))),
      ∀ (m : Model) (s : σ), config (readSeq rs m s).1 = config m := by
  refine ⟨rfl, rfl, rfl, rfl, ?_⟩
  intro rs
  induction rs with
  | nil => intro m s; rfl
  | cons p rest ih =>
      intro m s
      rcases p with ⟨a, f⟩
      simp only [readSeq]
      rw [ih _ _, config_property_wrap]

/-- Witness for `base_accessors_return_none` at the constructor's
default arguments. -/
theorem base_accessors_return_none_witness :
    @Model.prediction Nat Unit m0 0 = ((m0, 0), Except.ok PyVal.none) ∧
    @Model.loss Nat Unit m0 0 = ((m0, 0), Except.ok PyVal.none) ∧
    @Model.metric Nat Unit m0 0 = ((m0, 0), Except.ok PyVal.none) ∧
    @Model.optimize Nat Unit m0 0 = ((m0, 0), Except.ok PyVal.none) :=
  @base_accessors_return_none Nat Unit PyVal.none PyVal.none
    (PyVal.bool false) (PyVal.float (1 / 10000)) 0

/-- Witness for `config_stored_and_immutable`: arbitrary concrete
configuration values and one concrete read of `loss`. -/
theorem config_stored_and_immutable_witness :
    (Model.init (PyVal.int 1) (PyVal.int 2) (PyVal.bool true)
      (PyVal.float (1 / 2))).data = PyVal.int 1 ∧
    config (readSeq [(Attr.loss, @countingFunc Unit (PyVal.int 7))] m0 0).1 =
      config m0 :=
  have h := @config_stored_and_immutable Nat Unit (PyVal.int 1) (PyVal.int 2)
    (PyVal.bool true) (PyVal.float (1 / 2))
  ⟨h.1, h.2.2.2.2 [(Attr.loss, @countingFunc Unit (PyVal.int 7))] m0 0⟩

end BuildingBlocks
